import Mathlib

/-!
Verification of the conversation-continuation and token-budget logic of the
ClickAI proxy server (`src/server/server.js`).

The server is embedded shallowly:

* `countTokens` and `trimHistory` are direct translations of the functions of
  the same names.  The tiktoken encoder is external to the repository, so it
  is a parameter `enc : String → Nat` giving the token length of a content
  string; `countTokens` sums it over a message list exactly as the source
  reduces over `encoder.encode(msg.content).length`.
* The in-memory map `incompleteResponses` is modelled as an association list
  `Store` with first-match lookup; JavaScript property assignment is modelled
  by consing, which is observationally overwrite under first-match lookup.
* The `/generate` request handler is the pure function `generate`, taking the
  current store, the request body, and the upstream chat-completion call as a
  function `List Message → Option UpstreamResponse` (`none` models any caught
  failure: network error, auth error, or a malformed upstream body).  It
  returns the HTTP-level outcome together with the store after the request.
-/

/-- Message roles accepted by the upstream chat-completion API. -/
inductive Role where
  | user
  | assistant
deriving DecidableEq

/-- An outbound message: `{ role, content }` as assembled by the server. -/
structure Message where
  role : Role
  content : String
deriving DecidableEq

/-- `const MAX_TOKENS = 16385` (server.js line 33). -/
def MAX_TOKENS : Nat := 16385

/-- `const RESPONSE_TOKENS = 1000` (server.js line 34). -/
def RESPONSE_TOKENS : Nat := 1000

/-- The trimming budget used at the call site: `MAX_TOKENS - RESPONSE_TOKENS`. -/
def TOKEN_BUDGET : Nat := MAX_TOKENS - RESPONSE_TOKENS

/-- `countTokens` (server.js lines 45-47): reduce over the messages, summing
the encoded length of each message's content, starting from 0. -/
def countTokens (enc : String → Nat) (messages : List Message) : Nat :=
  messages.foldl (fun total msg => total + enc msg.content) 0

/-- `trimHistory` (server.js lines 56-61): while the token count exceeds
`maxTokens` and more than one message remains, drop the oldest message
(`history.shift()`), then return the list. -/
def trimHistory (enc : String → Nat) (history : List Message) (maxTokens : Nat) :
    List Message :=
  match history with
  | [] => []
  | m :: rest =>
    if countTokens enc (m :: rest) > maxTokens ∧ (m :: rest).length > 1 then
      trimHistory enc rest maxTokens
    else
      m :: rest

/-- The `incompleteResponses` object: response id ↦ accumulated fragments. -/
abbrev Store := List (String × List String)

/-- Property read `incompleteResponses[key]`: first matching entry, if any. -/
def lookupStore : Store → String → Option (List String)
  | [], _ => none
  | (k, v) :: rest, key => if k == key then some v else lookupStore rest key

/-- Property write `incompleteResponses[key] = value` (overwrite semantics
under first-match lookup). -/
def insertStore (store : Store) (key : String) (value : List String) : Store :=
  (key, value) :: store

/-- One entry of the client-side `conversationHistory` array. -/
structure ClientMessage where
  sender : String
  text : String
deriving DecidableEq

/-- The JSON body of a `/generate` request.  `none` for `conversationHistory`
covers both a missing field and a non-array value (both fail the
`conversationHistory && Array.isArray(conversationHistory)` test);
`none` for the string fields models absence, and the empty string is the
falsy string value. -/
structure RequestBody where
  conversationHistory : Option (List ClientMessage)
  continueId : Option String
  image : Option String
deriving DecidableEq

/-- JavaScript truthiness of an optional string field: present and nonempty. -/
def truthyStr : Option String → Bool
  | none => false
  | some s => s != ""

/-- The mapping at server.js lines 74-77:
`role: msg.sender === 'user' ? 'user' : 'assistant', content: msg.text`. -/
def toMessage (msg : ClientMessage) : Message :=
  { role := if msg.sender == "user" then Role.user else Role.assistant
    content := msg.text }

/-- Lines 68-80: if `image` is truthy the base list is the single user message
carrying the image; otherwise a present, nonempty `conversationHistory` is
mapped through `toMessage`; otherwise validation fails (`none` here, a 400
response in `generate`). -/
def baseHistory (req : RequestBody) : Option (List Message) :=
  if truthyStr req.image then
    some [{ role := Role.user, content := req.image.getD "" }]
  else
    match req.conversationHistory with
    | some hist =>
      if hist.length > 0 then some (hist.map toMessage) else none
    | none => none

/-- Lines 82-90: if `continueId` is truthy and resolves in the store, append
the stored fragments as assistant messages after the base history. -/
def spliceContinuation (store : Store) (continueId : Option String)
    (hist : List Message) : List Message :=
  match continueId with
  | some cid =>
    if cid != "" then
      match lookupStore store cid with
      | some frags =>
        hist ++ frags.map (fun frag => { role := Role.assistant, content := frag })
      | none => hist
    else hist
  | none => hist

/-- The message list handed to the upstream API: base history, continuation
splice, then `trimHistory` with budget `MAX_TOKENS - RESPONSE_TOKENS`
(line 93).  `none` when validation failed. -/
def outboundMessages (enc : String → Nat) (store : Store) (req : RequestBody) :
    Option (List Message) :=
  (baseHistory req).map fun hist =>
    trimHistory enc (spliceContinuation store req.continueId hist) TOKEN_BUDGET

/-- The fields of the upstream response the handler reads:
`choices[0].message.content`, `id`, `choices[0].finish_reason`. -/
structure UpstreamResponse where
  content : String
  id : String
  finish_reason : String
deriving DecidableEq

/-- The three ways the handler responds. -/
inductive HandlerResult where
  | clientError (error : String)
  | serverError (error : String)
  | success (response : String) (id : String) (isContinued : Bool)
deriving DecidableEq

/-- The HTTP status attached to each outcome (400, 500, 200). -/
def HandlerResult.status : HandlerResult → Nat
  | .clientError _ => 400
  | .serverError _ => 500
  | .success _ _ _ => 200

/-- Line 116's `(incompleteResponses[continueId] || [])`: the fragments stored
under the request's `continueId`, or the empty list when the id is absent or
the request carried none. -/
def priorFragments (store : Store) (continueId : Option String) : List String :=
  match continueId with
  | some cid => (lookupStore store cid).getD []
  | none => []

/-- The `/generate` handler (server.js lines 63-124).  Returns the response
sent to the client together with the `incompleteResponses` store after the
request. -/
def generate (enc : String → Nat) (store : Store) (req : RequestBody)
    (upstream : List Message → Option UpstreamResponse) :
    HandlerResult × Store :=
  match outboundMessages enc store req with
  | none =>
    (.clientError "Invalid input. Expected conversation history or image.", store)
  | some outbound =>
    match upstream outbound with
    | none => (.serverError "Error generating response", store)
    | some resp =>
      let isContinued := resp.finish_reason == "length"
      let newStore :=
        if isContinued then
          insertStore store resp.id
            (priorFragments store req.continueId ++ [resp.content])
        else store
      (.success resp.content resp.id isContinued, newStore)

/-! ### Basic lemmas about `countTokens` and `trimHistory` -/

theorem countTokens_foldl_shift (enc : String → Nat) (l : List Message) (a : Nat) :
    l.foldl (fun total msg => total + enc msg.content) a =
      a + l.foldl (fun total msg => total + enc msg.content) 0 := by
  induction l generalizing a with
  | nil => simp
  | cons m rest ih =>
    simp only [List.foldl_cons]
    rw [ih (a + enc m.content), ih (0 + enc m.content)]
    omega

theorem countTokens_cons (enc : String → Nat) (m : Message) (l : List Message) :
    countTokens enc (m :: l) = enc m.content + countTokens enc l := by
  simp only [countTokens, List.foldl_cons]
  rw [countTokens_foldl_shift]
  omega

/-- `trimHistory` only ever drops messages from the front: the result is a
suffix of the input. -/
theorem trimHistory_suffix (enc : String → Nat) (history : List Message)
    (maxTokens : Nat) : trimHistory enc history maxTokens <:+ history := by
  induction history with
  | nil => exact List.suffix_refl _
  | cons m rest ih =>
    rw [trimHistory]
    split
    · exact ih.trans (List.suffix_cons m rest)
    · exact List.suffix_refl _

/-- `trimHistory` never empties a nonempty list. -/
theorem trimHistory_ne_nil (enc : String → Nat) (history : List Message)
    (maxTokens : Nat) (h : history ≠ []) :
    trimHistory enc history maxTokens ≠ [] := by
  induction history with
  | nil => exact absurd rfl h
  | cons m rest ih =>
    rw [trimHistory]
    split
    · rename_i hcond
      apply ih
      intro hnil
      rw [hnil] at hcond
      simp at hcond
    · exact List.cons_ne_nil _ _

/-- On exit, the trim loop's guard is false: either the remaining list is
within budget or at most one message remains. -/
theorem trimHistory_post (enc : String → Nat) (history : List Message)
    (maxTokens : Nat) :
    countTokens enc (trimHistory enc history maxTokens) ≤ maxTokens ∨
      (trimHistory enc history maxTokens).length ≤ 1 := by
  induction history with
  | nil => right; simp [trimHistory]
  | cons m rest ih =>
    rw [trimHistory]
    split
    · exact ih
    · rename_i hcond
      rw [not_and_or] at hcond
      rcases hcond with hc | hc
      · left; omega
      · right; omega

/-- Within budget, trimming is the identity. -/
theorem trimHistory_of_le (enc : String → Nat) (history : List Message)
    (maxTokens : Nat) (h : countTokens enc history ≤ maxTokens) :
    trimHistory enc history maxTokens = history := by
  cases history with
  | nil => rfl
  | cons m rest =>
    rw [trimHistory]
    rw [if_neg]
    intro hcond
    omega

/-- Lists of at most one message are left untouched. -/
theorem trimHistory_of_short (enc : String → Nat) (history : List Message)
    (maxTokens : Nat) (h : history.length ≤ 1) :
    trimHistory enc history maxTokens = history := by
  cases history with
  | nil => rfl
  | cons m rest =>
    rw [trimHistory]
    rw [if_neg]
    intro hcond
    omega

/-- The base history is never empty when validation passes. -/
theorem baseHistory_ne_nil (req : RequestBody) (hist : List Message)
    (h : baseHistory req = some hist) : hist ≠ [] := by
  unfold baseHistory at h
  split at h
  · simp only [Option.some.injEq] at h
    subst h
    exact List.cons_ne_nil _ _
  · split at h
    · rename_i ch
      split at h
      · rename_i hl
        simp only [Option.some.injEq] at h
        subst h
        simp only [ne_eq, List.map_eq_nil_iff]
        intro hnil
        rw [hnil] at hl
        simp at hl
      · exact absurd h (by simp)
    · exact absurd h (by simp)

/-- The continuation splice only appends fragments after the base history. -/
theorem spliceContinuation_append (store : Store) (continueId : Option String)
    (hist : List Message) :
    ∃ t, spliceContinuation store continueId hist = hist ++ t := by
  cases continueId with
  | none => exact ⟨[], by simp [spliceContinuation]⟩
  | some cid =>
    simp only [spliceContinuation]
    split
    · cases lookupStore store cid with
      | none => exact ⟨[], by simp⟩
      | some frags => exact ⟨_, rfl⟩
    · exact ⟨[], by simp⟩

/-- The continuation splice preserves nonemptiness. -/
theorem spliceContinuation_ne_nil (store : Store) (continueId : Option String)
    (hist : List Message) (h : hist ≠ []) :
    spliceContinuation store continueId hist ≠ [] := by
  obtain ⟨t, ht⟩ := spliceContinuation_append store continueId hist
  rw [ht]
  intro hnil
  exact h (List.append_eq_nil.mp hnil).1

/-- Reading back a key just written returns the value written. -/
theorem lookupStore_insert (store : Store) (k : String) (v : List String) :
    lookupStore (insertStore store k v) k = some v := by
  simp [insertStore, lookupStore]

/-! ### Claim theorems -/

/-- C4: for every message list `M` with more than one message and
`countTokens M > budget`, `trimHistory` removes messages only from the front
(the result is a contiguous suffix of `M`) and the result contains at least
one message. -/
theorem trim_suffix_and_nonempty (enc : String → Nat) (M : List Message)
    (budget : Nat) (hlen : M.length > 1) (hover : countTokens enc M > budget) :
    trimHistory enc M budget <:+ M ∧ 1 ≤ (trimHistory enc M budget).length := by
  refine ⟨trimHistory_suffix enc M budget, ?_⟩
  have hne : M ≠ [] := by
    intro hnil
    rw [hnil] at hlen
    simp at hlen
  exact List.length_pos.mpr (trimHistory_ne_nil enc M budget hne)

/-- Witness for C4 at a concrete over-budget two-message list. -/
theorem trim_suffix_and_nonempty_witness :
    ([⟨Role.user, "aa"⟩, ⟨Role.user, "b"⟩] : List Message).length > 1 ∧
    countTokens (fun s => s.length) [⟨Role.user, "aa"⟩, ⟨Role.user, "b"⟩] > 2 ∧
    (trimHistory (fun s => s.length) [⟨Role.user, "aa"⟩, ⟨Role.user, "b"⟩] 2 <:+
        [⟨Role.user, "aa"⟩, ⟨Role.user, "b"⟩] ∧
      1 ≤ (trimHistory (fun s => s.length) [⟨Role.user, "aa"⟩, ⟨Role.user, "b"⟩] 2).length) :=
  ⟨by decide, by decide,
    trim_suffix_and_nonempty (fun s => s.length) [⟨Role.user, "aa"⟩, ⟨Role.user, "b"⟩] 2
      (by decide) (by decide)⟩

/-- C5: trimming is a no-op on lists already within budget. -/
theorem trim_noop_within_budget (enc : String → Nat) (M : List Message)
    (b : Nat) (h : countTokens enc M ≤ b) : trimHistory enc M b = M :=
  trimHistory_of_le enc M b h

/-- Witness for C5 at a concrete within-budget list. -/
theorem trim_noop_within_budget_witness :
    countTokens (fun s => s.length) [⟨Role.user, "hi"⟩, ⟨Role.assistant, "yo"⟩] ≤ 10 ∧
    trimHistory (fun s => s.length) [⟨Role.user, "hi"⟩, ⟨Role.assistant, "yo"⟩] 10 =
      [⟨Role.user, "hi"⟩, ⟨Role.assistant, "yo"⟩] :=
  ⟨by decide,
    trim_noop_within_budget (fun s => s.length)
      [⟨Role.user, "hi"⟩, ⟨Role.assistant, "yo"⟩] 10 (by decide)⟩

/-- C6: trimming is idempotent for a fixed budget. -/
theorem trim_idempotent (enc : String → Nat) (M : List Message) (b : Nat) :
    trimHistory enc (trimHistory enc M b) b = trimHistory enc M b := by
  rcases trimHistory_post enc M b with hle | hshort
  · exact trimHistory_of_le enc _ b hle
  · exact trimHistory_of_short enc _ b hshort

/-- C7: `trimHistory` is total (it is a terminating Lean function), its result
always satisfies the loop's exit condition — within budget or at most one
message left — and a single message is returned unchanged even when it alone
exceeds the budget. -/
theorem trim_terminates_single_passthrough (enc : String → Nat)
    (M : List Message) (b : Nat) :
    (countTokens enc (trimHistory enc M b) ≤ b ∨
      (trimHistory enc M b).length ≤ 1) ∧
    (∀ m : Message, trimHistory enc [m] b = [m]) :=
  ⟨trimHistory_post enc M b,
    fun m => trimHistory_of_short enc [m] b (by simp)⟩

/-- A content string of 15386 repetitions of " hello": 92316 characters, and
more than 15385 tokens under any encoding that yields at least one token per
repetition (the cl100k/gpt-4 tokenizer encodes each " hello" as one token). -/
def longContent : String := String.join (List.replicate 15386 " hello")

theorem length_foldl_append (l : List String) (a : String) :
    (l.foldl (fun x y => x ++ y) a).length = a.length + (l.map String.length).sum := by
  induction l generalizing a with
  | nil => simp
  | cons s rest ih =>
    simp only [List.foldl_cons, List.map_cons, List.sum_cons]
    rw [ih]
    simp [String.length_append]
    omega

theorem longContent_length : longContent.length = 92316 := by
  have h := length_foldl_append (List.replicate 15386 " hello") ""
  simp only [longContent, String.join]
  rw [h]
  simp only [List.map_replicate, List.sum_replicate, smul_eq_mul]
  have h6 : (" hello").length = 6 := rfl
  have h0 : ("" : String).length = 0 := rfl
  rw [h6, h0]

/-- A request consisting of one user message whose content alone exceeds the
budget is sent upstream untrimmed. -/
theorem outbound_single_overlong (enc : String → Nat) (s : String)
    (h : TOKEN_BUDGET < enc s) :
    outboundMessages enc []
        { conversationHistory := some [{ sender := "user", text := s }],
          continueId := none, image := none } =
      some [{ role := Role.user, content := s }] ∧
    TOKEN_BUDGET < countTokens enc [{ role := Role.user, content := s }] := by
  constructor
  · have hbase : baseHistory
        { conversationHistory := some [{ sender := "user", text := s }],
          continueId := none, image := none } =
        some [{ role := Role.user, content := s }] := rfl
    unfold outboundMessages
    rw [hbase, Option.map_some']
    have hsplice : spliceContinuation [] none [{ role := Role.user, content := s }] =
        [{ role := Role.user, content := s }] := rfl
    rw [hsplice, trimHistory_of_short]
    simp
  · rw [countTokens_cons]
    have hzero : countTokens enc [] = 0 := rfl
    rw [hzero]
    simpa using h

/-- C1 counterexample: a request whose single message alone exceeds the
budget is sent upstream untrimmed, so the outbound message list's token count
exceeds `MAX_TOKENS - RESPONSE_TOKENS`.  (Measured here with the
character-count encoder; under the real gpt-4 tokenizer the same content is
15386 tokens, also over the 15385 budget.) -/
theorem outbound_can_exceed_budget :
    outboundMessages (fun s => s.length) []
        { conversationHistory := some [{ sender := "user", text := longContent }],
          continueId := none, image := none } =
      some [{ role := Role.user, content := longContent }] ∧
    TOKEN_BUDGET < countTokens (fun s => s.length)
      [{ role := Role.user, content := longContent }] :=
  outbound_single_overlong (fun s => s.length) longContent
    (by show TOKEN_BUDGET < longContent.length; rw [longContent_length]; decide)

/-- C1 amended: the outbound message list of any handled request is within
the `MAX_TOKENS - RESPONSE_TOKENS` budget, or else consists of exactly one
message (the trimmer never drops the last message, even when it alone
exceeds the budget). -/
theorem outbound_within_budget_or_single (enc : String → Nat) (store : Store)
    (req : RequestBody) (l : List Message)
    (h : outboundMessages enc store req = some l) :
    countTokens enc l ≤ TOKEN_BUDGET ∨ l.length = 1 := by
  unfold outboundMessages at h
  cases hb : baseHistory req with
  | none => rw [hb] at h; exact absurd h (by simp)
  | some hist =>
    rw [hb] at h
    simp only [Option.map_some', Option.some.injEq] at h
    subst h
    rcases trimHistory_post enc (spliceContinuation store req.continueId hist)
        TOKEN_BUDGET with hle | hshort
    · exact Or.inl hle
    · right
      have hne : trimHistory enc (spliceContinuation store req.continueId hist)
          TOKEN_BUDGET ≠ [] :=
        trimHistory_ne_nil enc _ TOKEN_BUDGET
          (spliceContinuation_ne_nil store req.continueId hist
            (baseHistory_ne_nil req hist hb))
      have hpos := List.length_pos.mpr hne
      omega

/-- C2 counterexample: entries are never deleted from the store, so a request
whose upstream response id collides with a stale entry completes with
`isContinued = false` while the store still contains an entry keyed by the
returned id — refuting the "exactly when" direction. -/
theorem store_entry_without_truncation :
    generate (fun s => s.length) [("chatcmpl-1", ["part"])]
        { conversationHistory := some [{ sender := "user", text := "hi" }],
          continueId := none, image := none }
        (fun _ => some { content := "done", id := "chatcmpl-1", finish_reason := "stop" }) =
      (HandlerResult.success "done" "chatcmpl-1" false, [("chatcmpl-1", ["part"])]) ∧
    lookupStore [("chatcmpl-1", ["part"])] "chatcmpl-1" = some ["part"] := by
  exact ⟨by decide, by decide⟩

/-- C2 amended: on every successful request the returned `isContinued` flag
equals (`finish_reason == "length"`); when it is true the store afterwards
contains an entry keyed by the returned id; when it is false the store is
unchanged by the request (an entry keyed by the returned id may nevertheless
pre-exist, since entries are never deleted). -/
theorem isContinued_iff_length_and_store (enc : String → Nat) (store : Store)
    (req : RequestBody) (upstream : List Message → Option UpstreamResponse)
    (outb : List Message) (resp : UpstreamResponse)
    (h1 : outboundMessages enc store req = some outb)
    (h2 : upstream outb = some resp) :
    (generate enc store req upstream).1 =
      HandlerResult.success resp.content resp.id (resp.finish_reason == "length") ∧
    ((resp.finish_reason == "length") = true →
      (lookupStore (generate enc store req upstream).2 resp.id).isSome = true) ∧
    ((resp.finish_reason == "length") = false →
      (generate enc store req upstream).2 = store) := by
  have hg : generate enc store req upstream =
      (HandlerResult.success resp.content resp.id (resp.finish_reason == "length"),
        if (resp.finish_reason == "length") then
          insertStore store resp.id (priorFragments store req.continueId ++ [resp.content])
        else store) := by
    simp only [generate, h1, h2]
  rw [hg]
  refine ⟨rfl, ?_, ?_⟩
  · intro hlen
    rw [if_pos hlen, lookupStore_insert]
    rfl
  · intro hlen
    rw [if_neg]
    rw [hlen]
    exact Bool.false_ne_true

/-- Witness for C2's amended theorem at a concrete truncated completion. -/
theorem isContinued_iff_length_and_store_witness :
    outboundMessages (fun s => s.length) []
        { conversationHistory := some [{ sender := "user", text := "hi" }],
          continueId := none, image := none } =
      some [{ role := Role.user, content := "hi" }] ∧
    ((fun _ => some { content := "part1", id := "id1", finish_reason := "length" }) :
        List Message → Option UpstreamResponse) [{ role := Role.user, content := "hi" }] =
      some { content := "part1", id := "id1", finish_reason := "length" } ∧
    ((generate (fun s => s.length) []
        { conversationHistory := some [{ sender := "user", text := "hi" }],
          continueId := none, image := none }
        (fun _ => some { content := "part1", id := "id1", finish_reason := "length" })).1 =
      HandlerResult.success "part1" "id1" (("length" : String) == "length") ∧
    ((("length" : String) == "length") = true →
      (lookupStore (generate (fun s => s.length) []
        { conversationHistory := some [{ sender := "user", text := "hi" }],
          continueId := none, image := none }
        (fun _ => some { content := "part1", id := "id1", finish_reason := "length" })).2
          "id1").isSome = true) ∧
    ((("length" : String) == "length") = false →
      (generate (fun s => s.length) []
        { conversationHistory := some [{ sender := "user", text := "hi" }],
          continueId := none, image := none }
        (fun _ => some { content := "part1", id := "id1", finish_reason := "length" })).2 =
        [])) :=
  ⟨by decide, rfl,
    isContinued_iff_length_and_store (fun s => s.length) []
      { conversationHistory := some [{ sender := "user", text := "hi" }],
        continueId := none, image := none }
      (fun _ => some { content := "part1", id := "id1", finish_reason := "length" })
      [{ role := Role.user, content := "hi" }]
      { content := "part1", id := "id1", finish_reason := "length" }
      (by decide) rfl⟩

/-- Witness for C1's amended theorem at a concrete request. -/
theorem outbound_within_budget_or_single_witness :
    outboundMessages (fun s => s.length) []
        { conversationHistory := some [{ sender := "user", text := "hi" }],
          continueId := none, image := none } =
      some [{ role := Role.user, content := "hi" }] ∧
    (countTokens (fun s => s.length) [{ role := Role.user, content := "hi" }] ≤
        TOKEN_BUDGET ∨
      ([{ role := Role.user, content := "hi" }] : List Message).length = 1) :=
  ⟨by decide,
    outbound_within_budget_or_single (fun s => s.length) []
      { conversationHistory := some [{ sender := "user", text := "hi" }],
        continueId := none, image := none }
      [{ role := Role.user, content := "hi" }] (by decide)⟩

/-- C3: when a completion is truncated (`finish_reason = "length"`), the new
store entry under the upstream response id is the fragments previously stored
under the request's `continueId` (empty if absent) with the new completion
text appended; and a subsequent request carrying that id as `continueId` has
each stored fragment appended to its outbound list as an assistant message,
after the base history and before trimming and the upstream call. -/
theorem continuation_record_and_splice (enc : String → Nat) (store : Store)
    (req1 req2 : RequestBody) (up1 : List Message → Option UpstreamResponse)
    (outb1 : List Message) (resp1 : UpstreamResponse) (hist2 : List Message)
    (h1 : outboundMessages enc store req1 = some outb1)
    (h2 : up1 outb1 = some resp1)
    (h3 : resp1.finish_reason = "length")
    (h4 : resp1.id ≠ "")
    (h5 : req2.continueId = some resp1.id)
    (h6 : baseHistory req2 = some hist2) :
    lookupStore (generate enc store req1 up1).2 resp1.id =
      some (priorFragments store req1.continueId ++ [resp1.content]) ∧
    outboundMessages enc (generate enc store req1 up1).2 req2 =
      some (trimHistory enc
        (hist2 ++ (priorFragments store req1.continueId ++ [resp1.content]).map
          (fun frag => { role := Role.assistant, content := frag }))
        TOKEN_BUDGET) := by
  have hcont : (resp1.finish_reason == "length") = true := by
    rw [h3]
    rfl
  have hstore : (generate enc store req1 up1).2 =
      insertStore store resp1.id
        (priorFragments store req1.continueId ++ [resp1.content]) := by
    simp only [generate, h1, h2, hcont, if_true]
  have hlook : lookupStore (generate enc store req1 up1).2 resp1.id =
      some (priorFragments store req1.continueId ++ [resp1.content]) := by
    rw [hstore, lookupStore_insert]
  refine ⟨hlook, ?_⟩
  have hsplice : spliceContinuation (generate enc store req1 up1).2
      req2.continueId hist2 =
      hist2 ++ (priorFragments store req1.continueId ++ [resp1.content]).map
        (fun frag => { role := Role.assistant, content := frag }) := by
    rw [h5]
    simp only [spliceContinuation]
    rw [if_pos (bne_iff_ne.mpr h4), hlook]
  unfold outboundMessages
  rw [h6, Option.map_some', hsplice]

/-- Witness for C3: a truncated completion followed by a continuation
request, at concrete inputs. -/
theorem continuation_record_and_splice_witness :
    outboundMessages (fun s => s.length) []
        { conversationHistory := some [{ sender := "user", text := "hi" }],
          continueId := none, image := none } =
      some [{ role := Role.user, content := "hi" }] ∧
    lookupStore (generate (fun s => s.length) []
        { conversationHistory := some [{ sender := "user", text := "hi" }],
          continueId := none, image := none }
        (fun _ => some { content := "part1", id := "id1", finish_reason := "length" })).2
        "id1" =
      some (priorFragments [] none ++ ["part1"]) ∧
    outboundMessages (fun s => s.length)
        (generate (fun s => s.length) []
          { conversationHistory := some [{ sender := "user", text := "hi" }],
            continueId := none, image := none }
          (fun _ => some { content := "part1", id := "id1", finish_reason := "length" })).2
        { conversationHistory := some [{ sender := "user", text := "hi" }],
          continueId := some "id1", image := none } =
      some (trimHistory (fun s => s.length)
        ([{ role := Role.user, content := "hi" }] ++
          (priorFragments [] none ++ ["part1"]).map
            (fun frag => { role := Role.assistant, content := frag }))
        TOKEN_BUDGET) := by
  refine ⟨by decide, ?_, ?_⟩
  · exact (continuation_record_and_splice (fun s => s.length) []
      { conversationHistory := some [{ sender := "user", text := "hi" }],
        continueId := none, image := none }
      { conversationHistory := some [{ sender := "user", text := "hi" }],
        continueId := some "id1", image := none }
      (fun _ => some { content := "part1", id := "id1", finish_reason := "length" })
      [{ role := Role.user, content := "hi" }]
      { content := "part1", id := "id1", finish_reason := "length" }
      [{ role := Role.user, content := "hi" }]
      (by decide) rfl rfl (by decide) rfl (by decide)).1
  · exact (continuation_record_and_splice (fun s => s.length) []
      { conversationHistory := some [{ sender := "user", text := "hi" }],
        continueId := none, image := none }
      { conversationHistory := some [{ sender := "user", text := "hi" }],
        continueId := some "id1", image := none }
      (fun _ => some { content := "part1", id := "id1", finish_reason := "length" })
      [{ role := Role.user, content := "hi" }]
      { content := "part1", id := "id1", finish_reason := "length" }
      [{ role := Role.user, content := "hi" }]
      (by decide) rfl rfl (by decide) rfl (by decide)).2

/-- C8: a request with no truthy image and a missing, non-array, or empty
conversation history yields the 400 client error "Invalid input. Expected
conversation history or image.", independently of the upstream client (no
upstream call), with the store unchanged. -/
theorem invalid_input_client_error (enc : String → Nat) (store : Store)
    (req : RequestBody) (upstream : List Message → Option UpstreamResponse)
    (himg : truthyStr req.image = false)
    (hhist : req.conversationHistory = none ∨ req.conversationHistory = some []) :
    generate enc store req upstream =
      (HandlerResult.clientError "Invalid input. Expected conversation history or image.",
        store) ∧
    (generate enc store req upstream).1.status = 400 := by
  have hbase : baseHistory req = none := by
    unfold baseHistory
    rw [himg]
    rcases hhist with hh | hh <;> rw [hh] <;> simp
  have hout : outboundMessages enc store req = none := by
    unfold outboundMessages
    rw [hbase]
    rfl
  have hg : generate enc store req upstream =
      (HandlerResult.clientError "Invalid input. Expected conversation history or image.",
        store) := by
    simp only [generate, hout]
  exact ⟨hg, by rw [hg]; rfl⟩

/-- Witness for C8 at a concrete empty-history request; the upstream client
would return a successful completion, yet the result is the 400 error and the
nonempty store is untouched. -/
theorem invalid_input_client_error_witness :
    truthyStr (none : Option String) = false ∧
    (generate (fun s => s.length) [("k", ["v"])]
        { conversationHistory := some [], continueId := none, image := none }
        (fun _ => some { content := "r", id := "i", finish_reason := "stop" }) =
      (HandlerResult.clientError "Invalid input. Expected conversation history or image.",
        [("k", ["v"])]) ∧
    (generate (fun s => s.length) [("k", ["v"])]
        { conversationHistory := some [], continueId := none, image := none }
        (fun _ => some { content := "r", id := "i", finish_reason := "stop" })).1.status =
      400) :=
  ⟨by decide,
    invalid_input_client_error (fun s => s.length) [("k", ["v"])]
      { conversationHistory := some [], continueId := none, image := none }
      (fun _ => some { content := "r", id := "i", finish_reason := "stop" })
      (by decide) (Or.inr rfl)⟩

/-- C9: when the upstream call fails, the handler answers with the 500 server
error whose message is exactly "Error generating response" (no upstream
detail), and the store is unchanged. -/
theorem upstream_failure_server_error (enc : String → Nat) (store : Store)
    (req : RequestBody) (upstream : List Message → Option UpstreamResponse)
    (outb : List Message)
    (h1 : outboundMessages enc store req = some outb)
    (h2 : upstream outb = none) :
    generate enc store req upstream =
      (HandlerResult.serverError "Error generating response", store) ∧
    (generate enc store req upstream).1.status = 500 := by
  have hg : generate enc store req upstream =
      (HandlerResult.serverError "Error generating response", store) := by
    simp only [generate, h1, h2]
  exact ⟨hg, by rw [hg]; rfl⟩

/-- Witness for C9 at a concrete failing upstream call. -/
theorem upstream_failure_server_error_witness :
    outboundMessages (fun s => s.length) [("k", ["v"])]
        { conversationHistory := some [{ sender := "user", text := "hi" }],
          continueId := none, image := none } =
      some [{ role := Role.user, content := "hi" }] ∧
    (generate (fun s => s.length) [("k", ["v"])]
        { conversationHistory := some [{ sender := "user", text := "hi" }],
          continueId := none, image := none }
        (fun _ => none) =
      (HandlerResult.serverError "Error generating response", [("k", ["v"])]) ∧
    (generate (fun s => s.length) [("k", ["v"])]
        { conversationHistory := some [{ sender := "user", text := "hi" }],
          continueId := none, image := none }
        (fun _ => none)).1.status = 500) :=
  ⟨by decide,
    upstream_failure_server_error (fun s => s.length) [("k", ["v"])]
      { conversationHistory := some [{ sender := "user", text := "hi" }],
        continueId := none, image := none }
      (fun _ => none)
      [{ role := Role.user, content := "hi" }] (by decide) rfl⟩

/-- C10: a truthy image makes the base outbound list exactly the single user
message carrying the image, and the request's conversation history is ignored
entirely: replacing it by anything else leaves the handler's behaviour
unchanged. -/
theorem image_overrides_history (enc : String → Nat) (store : Store)
    (req : RequestBody) (upstream : List Message → Option UpstreamResponse)
    (img : String) (h : req.image = some img) (hne : img ≠ "") :
    baseHistory req = some [{ role := Role.user, content := img }] ∧
    ∀ ch, generate enc store { req with conversationHistory := ch } upstream =
      generate enc store req upstream := by
  have htr : truthyStr req.image = true := by
    rw [h]
    simp [truthyStr, hne]
  have hbase : baseHistory req = some [{ role := Role.user, content := img }] := by
    unfold baseHistory
    rw [htr, if_pos rfl, h]
    rfl
  refine ⟨hbase, fun ch => ?_⟩
  have hbase2 : baseHistory { req with conversationHistory := ch } =
      some [{ role := Role.user, content := img }] := by
    unfold baseHistory
    rw [show ({ req with conversationHistory := ch } : RequestBody).image = req.image from rfl]
    rw [htr, if_pos rfl, h]
    rfl
  have hout : outboundMessages enc store { req with conversationHistory := ch } =
      outboundMessages enc store req := by
    unfold outboundMessages
    rw [hbase, hbase2]
  unfold generate
  rw [hout]

/-- Witness for C10: a request carrying both an image and a conversation
history behaves exactly as if the history were replaced. -/
theorem image_overrides_history_witness :
    baseHistory
        { conversationHistory := some [{ sender := "user", text := "ignored" }],
          continueId := none, image := some "dataurl" } =
      some [{ role := Role.user, content := "dataurl" }] ∧
    generate (fun s => s.length) []
        { conversationHistory := some [{ sender := "user", text := "ignored" }],
          continueId := none, image := some "dataurl" }
        (fun _ => some { content := "r", id := "i", finish_reason := "stop" }) =
      generate (fun s => s.length) []
        { conversationHistory := some [{ sender := "user", text := "other" }],
          continueId := none, image := some "dataurl" }
        (fun _ => some { content := "r", id := "i", finish_reason := "stop" }) :=
  ⟨(image_overrides_history (fun s => s.length) []
      { conversationHistory := some [{ sender := "user", text := "other" }],
        continueId := none, image := some "dataurl" }
      (fun _ => some { content := "r", id := "i", finish_reason := "stop" })
      "dataurl" rfl (by decide)).1,
    (image_overrides_history (fun s => s.length) []
      { conversationHistory := some [{ sender := "user", text := "other" }],
        continueId := none, image := some "dataurl" }
      (fun _ => some { content := "r", id := "i", finish_reason := "stop" })
      "dataurl" rfl (by decide)).2
      (some [{ sender := "user", text := "ignored" }])⟩
